import Mathlib

/-! Shallow embedding of the connectivity-probe core of cbdix
(src/lib/core.py).  Network effects (the icmplib ping exchange, the
aiohttp GET, and task-level failures inside asyncio.gather) are
nondeterministic inputs; they are modelled as oracle values passed to
the pure result-shaping code, which is translated line by line from
the source.  Rational numbers stand in for Python floats; the claims
settled here only depend on exact values (100.0, division guard), not
on rounding.
-/

namespace Cbdix

/-- Outcome of the underlying `async_ping` call for one hostname:
either it returns an object (with `is_alive`, `avg_rtt`, `packet_loss`
attributes), or it raises `NameLookupError`, an `ICMPLibError` with a
message, or some other exception with a message. -/
inductive PingEffect where
  | success (is_alive : Bool) (avg_rtt : ℚ) (packet_loss : ℚ)
  | nameLookupError
  | icmpLibError (msg : String)
  | otherError (msg : String)
deriving Repr, DecidableEq

/-- The dict returned by `_ping_single_host` in core.py. -/
structure PingResult where
  hostname : String
  is_alive : Bool
  avg_rtt : Option ℚ
  packet_loss : ℚ
  error : Option String
deriving Repr, DecidableEq

/-- `_ping_single_host` (core.py lines 30-85): normalizes every outcome
of the ICMP exchange into one `PingResult` dict.  The `eff` argument is
the behaviour of the `async_ping` call for this hostname. -/
def ping_single_host (hostname : String) (eff : PingEffect) : PingResult :=
  match eff with
  | .success alive rtt loss =>
      { hostname := hostname
        is_alive := alive
        avg_rtt := if alive then some rtt else none
        packet_loss := loss
        error := none }
  | .nameLookupError =>
      { hostname := hostname
        is_alive := false
        avg_rtt := none
        packet_loss := 100
        error := some "DNS resolution failed" }
  | .icmpLibError msg =>
      { hostname := hostname
        is_alive := false
        avg_rtt := none
        packet_loss := 100
        error := some msg }
  | .otherError msg =>
      { hostname := hostname
        is_alive := false
        avg_rtt := none
        packet_loss := 100
        error := some ("Unexpected error: " ++ msg) }

/-- Outcome of the `session.get` call for one URL: a response with a
final status and final (post-redirect) URL, or `aiohttp.ClientError`,
`TimeoutError`, or some other exception. -/
inductive HttpEffect where
  | response (status : ℕ) (final_url : String)
  | clientError (msg : String)
  | timeoutError
  | otherError (msg : String)
deriving Repr, DecidableEq

/-- The dict returned by `_check_single_url_http` in core.py. -/
structure HttpResult where
  url : String
  http_status : Option ℕ
  redirects_to : Option String
  is_http_working : Bool
  error : Option String
deriving Repr, DecidableEq

/-- `_check_single_url_http` (core.py lines 205-264): issues one GET
with redirects followed and normalizes the outcome. -/
def check_single_url_http (url : String) (eff : HttpEffect) : HttpResult :=
  match eff with
  | .response status final_url =>
      { url := url
        http_status := some status
        redirects_to := if url ≠ final_url then some final_url else none
        is_http_working := status < 400
        error := none }
  | .clientError msg =>
      { url := url
        http_status := none
        redirects_to := none
        is_http_working := false
        error := some ("Connection error: " ++ msg) }
  | .timeoutError =>
      { url := url
        http_status := none
        redirects_to := none
        is_http_working := false
        error := some "Timeout" }
  | .otherError msg =>
      { url := url
        http_status := none
        redirects_to := none
        is_http_working := false
        error := some ("Unexpected error: " ++ msg) }

/-- The dict returned by `check_url_connectivity` in core.py. -/
structure ConnectivityResult where
  url : String
  hostname : String
  ping_result : PingResult
  http_result : Option HttpResult
  is_working : Bool
deriving Repr, DecidableEq

/-- `check_url_connectivity` (core.py lines 141-202): stage 1 pings the
hostname; stage 2 (HTTP) runs only if `ping_result["is_alive"]`;
`is_working = ping_result["is_alive"] and (http_result and
http_result["is_http_working"])`.  `extract_hostname` is the URL-parsing
helper from src/lib/utils.py (not under src/), kept abstract; `pingEff`
and `httpEff` are the behaviours of the two network calls. -/
def check_url_connectivity (url : String) (extract_hostname : String → String)
    (pingEff : PingEffect) (httpEff : HttpEffect) : ConnectivityResult :=
  let hostname := extract_hostname url
  let ping_result := ping_single_host hostname pingEff
  let http_result :=
    if ping_result.is_alive then some (check_single_url_http url httpEff) else none
  let is_working := ping_result.is_alive &&
    (match http_result with
     | some h => h.is_http_working
     | none => false)
  { url := url
    hostname := hostname
    ping_result := ping_result
    http_result := http_result
    is_working := is_working }

/-- Behaviour of one endpoint-check task inside `asyncio.gather`: either
it runs `check_url_connectivity` to completion (with the given network
effects) or it raises an exception with a message, which `gather` with
`return_exceptions=True` hands back as a value. -/
inductive TaskOutcome where
  | ok (pingEff : PingEffect) (httpEff : HttpEffect)
  | raised (msg : String)
deriving Repr, DecidableEq

/-- The exception-to-fallback conversion in `check_bdix_connectivity`
(core.py lines 299-322): a normal task result is kept, an exception is
replaced by the synthetic fallback dict. -/
def processTask (extract_hostname : String → String) (url : String) :
    TaskOutcome → ConnectivityResult
  | .ok pingEff httpEff => check_url_connectivity url extract_hostname pingEff httpEff
  | .raised msg =>
      { url := url
        hostname := extract_hostname url
        ping_result :=
          { hostname := extract_hostname url
            is_alive := false
            avg_rtt := none
            packet_loss := 100
            error := some ("Task failed: " ++ msg) }
        http_result := none
        is_working := false }

/-- The dict returned by `check_bdix_connectivity` in core.py. -/
structure BatchReport where
  total_urls_tested : ℕ
  working_urls : List String
  working_count : ℕ
  success_rate : ℚ
  total_hosts : ℕ
  connectivity_results : List ConnectivityResult
  http_check_enabled : Bool
deriving Repr, DecidableEq

/-- `check_bdix_connectivity` (core.py lines 267-371): fans out one task
per URL (the `env` oracle gives task `i` its behaviour), converts
task-level exceptions into fallback results, then aggregates.
`working_urls` filters by `is_working`; `success_rate` is guarded when
the batch is empty; `pingable_hosts` is a set of hostnames of
ping-alive results, modelled by deduplicating the hostname list; the
`check_http` flag is only echoed back as `http_check_enabled`. -/
def check_bdix_connectivity (urls : List String)
    (extract_hostname : String → String) (env : ℕ → TaskOutcome)
    (check_http : Bool) : BatchReport :=
  let connectivity_results :=
    urls.mapIdx (fun i url => processTask extract_hostname url (env i))
  let working_urls :=
    (connectivity_results.filter (fun r => r.is_working)).map (fun r => r.url)
  let total_urls := urls.length
  let working_count := working_urls.length
  let pingable_hosts :=
    ((connectivity_results.filter (fun r => r.ping_result.is_alive)).map
      (fun r => r.hostname)).dedup
  { total_urls_tested := total_urls
    working_urls := working_urls
    working_count := working_count
    success_rate := if total_urls ≠ 0 then (working_count : ℚ) / total_urls * 100 else 0
    total_hosts := pingable_hosts.length
    connectivity_results := connectivity_results
    http_check_enabled := check_http }

/-- A concrete oracle used by witnesses: task 0 pings alive and gets an
HTTP 200, task 1 raises, every other task hits a DNS failure. -/
def sampleEnv : ℕ → TaskOutcome
  | 0 => .ok (.success true 10 0) (.response 200 "http://a.example/home")
  | 1 => .raised "boom"
  | _ => .ok .nameLookupError .timeoutError

/-- C8: every failure path of the single-host ICMP probe yields a dead
ping with no RTT and 100 percent packet loss, and the three failure
kinds carry three distinguishable error strings: the fixed DNS message,
the underlying library message, and an Unexpected-error prefix. -/
theorem ping_failure_taxonomy (hostname msg : String) :
    ping_single_host hostname PingEffect.nameLookupError =
      { hostname := hostname
        is_alive := false
        avg_rtt := none
        packet_loss := 100
        error := some "DNS resolution failed" } ∧
    ping_single_host hostname (PingEffect.icmpLibError msg) =
      { hostname := hostname
        is_alive := false
        avg_rtt := none
        packet_loss := 100
        error := some msg } ∧
    ping_single_host hostname (PingEffect.otherError msg) =
      { hostname := hostname
        is_alive := false
        avg_rtt := none
        packet_loss := 100
        error := some ("Unexpected error: " ++ msg) } :=
  ⟨rfl, rfl, rfl⟩

/-- C10: when the ICMP exchange completes without raising, the result
carries error none even when the host is not alive, keeps the reported
packet loss instead of a hard-coded 100, and has no RTT when dead. -/
theorem ping_no_exception_error_none (hostname : String) (alive : Bool)
    (rtt loss : ℚ) :
    (ping_single_host hostname (PingEffect.success alive rtt loss)).error = none ∧
    (ping_single_host hostname (PingEffect.success alive rtt loss)).packet_loss = loss ∧
    (ping_single_host hostname (PingEffect.success alive rtt loss)).is_alive = alive ∧
    (alive = false →
      (ping_single_host hostname (PingEffect.success alive rtt loss)).avg_rtt = none) := by
  refine ⟨rfl, rfl, rfl, ?_⟩
  intro h
  simp [ping_single_host, h]

/-- Witness for C10: a concrete no-exception probe with a dead host is a
reachable output with is_alive false and error none. -/
theorem ping_no_exception_error_none_witness :
    (ping_single_host "h.example" (PingEffect.success false 0 40)).error = none ∧
    (ping_single_host "h.example" (PingEffect.success false 0 40)).packet_loss = 40 ∧
    (ping_single_host "h.example" (PingEffect.success false 0 40)).avg_rtt = none :=
  ⟨(ping_no_exception_error_none "h.example" false 0 40).1,
   (ping_no_exception_error_none "h.example" false 0 40).2.1,
   (ping_no_exception_error_none "h.example" false 0 40).2.2.2 rfl⟩

/-- C9: the check_http flag changes no field of the report other than
http_check_enabled, which simply echoes the argument; HTTP probing is
not disabled by it. -/
theorem check_http_flag_only_echoed (urls : List String)
    (eh : String → String) (env : ℕ → TaskOutcome) (b : Bool) :
    (check_bdix_connectivity urls eh env true).total_urls_tested =
      (check_bdix_connectivity urls eh env false).total_urls_tested ∧
    (check_bdix_connectivity urls eh env true).working_urls =
      (check_bdix_connectivity urls eh env false).working_urls ∧
    (check_bdix_connectivity urls eh env true).working_count =
      (check_bdix_connectivity urls eh env false).working_count ∧
    (check_bdix_connectivity urls eh env true).success_rate =
      (check_bdix_connectivity urls eh env false).success_rate ∧
    (check_bdix_connectivity urls eh env true).total_hosts =
      (check_bdix_connectivity urls eh env false).total_hosts ∧
    (check_bdix_connectivity urls eh env true).connectivity_results =
      (check_bdix_connectivity urls eh env false).connectivity_results ∧
    (check_bdix_connectivity urls eh env b).http_check_enabled = b :=
  ⟨rfl, rfl, rfl, rfl, rfl, rfl, rfl⟩

/-- C6: on an HTTP response the probe records the final status code,
is_http_working holds exactly when the status is below 400 (so 400, 404
and 500 give false while 200, 301 and 302 give true), and redirects_to
is the final URL exactly when it differs from the requested one. -/
theorem http_response_fields (url final : String) (status : ℕ) :
    (check_single_url_http url (HttpEffect.response status final)).http_status =
      some status ∧
    ((check_single_url_http url (HttpEffect.response status final)).is_http_working =
      true ↔ status < 400) ∧
    (url ≠ final →
      (check_single_url_http url (HttpEffect.response status final)).redirects_to =
        some final) ∧
    (url = final →
      (check_single_url_http url (HttpEffect.response status final)).redirects_to =
        none) ∧
    (check_single_url_http url (HttpEffect.response 400 final)).is_http_working = false ∧
    (check_single_url_http url (HttpEffect.response 404 final)).is_http_working = false ∧
    (check_single_url_http url (HttpEffect.response 500 final)).is_http_working = false ∧
    (check_single_url_http url (HttpEffect.response 200 final)).is_http_working = true ∧
    (check_single_url_http url (HttpEffect.response 301 final)).is_http_working = true ∧
    (check_single_url_http url (HttpEffect.response 302 final)).is_http_working = true := by
  refine ⟨rfl, ?_, ?_, ?_, ?_, ?_, ?_, ?_, ?_, ?_⟩
  · simp [check_single_url_http]
  · intro h
    simp [check_single_url_http, h]
  · intro h
    simp [check_single_url_http, h]
  all_goals simp [check_single_url_http]

/-- Witness for C6: a concrete 302 response that redirects, and one
whose final URL equals the requested URL. -/
theorem http_response_fields_witness :
    (check_single_url_http "http://a.example"
      (HttpEffect.response 302 "http://a.example/home")).http_status = some 302 ∧
    (check_single_url_http "http://a.example"
      (HttpEffect.response 302 "http://a.example/home")).is_http_working = true ∧
    (check_single_url_http "http://a.example"
      (HttpEffect.response 302 "http://a.example/home")).redirects_to =
        some "http://a.example/home" ∧
    (check_single_url_http "http://a.example"
      (HttpEffect.response 302 "http://a.example")).redirects_to = none :=
  ⟨(http_response_fields "http://a.example" "http://a.example/home" 302).1,
   ((http_response_fields "http://a.example" "http://a.example/home" 302).2.1).mpr
     (by decide),
   (http_response_fields "http://a.example" "http://a.example/home" 302).2.2.1
     (by decide),
   (http_response_fields "http://a.example" "http://a.example" 302).2.2.2.1 rfl⟩

/-- C1: a batch report has exactly one result per input endpoint, and a
task that raises at index i is converted into the fallback result with a
dead ping, a Task-failed error message, no HTTP result and is_working
false. -/
theorem batch_length_and_raised_task_fallback (urls : List String)
    (eh : String → String) (env : ℕ → TaskOutcome) (chk : Bool)
    (i : ℕ) (msg : String) (h : i < urls.length)
    (henv : env i = TaskOutcome.raised msg) :
    (check_bdix_connectivity urls eh env chk).connectivity_results.length =
      urls.length ∧
    (check_bdix_connectivity urls eh env chk).connectivity_results[i]? =
      some { url := urls[i]
             hostname := eh urls[i]
             ping_result :=
               { hostname := eh urls[i]
                 is_alive := false
                 avg_rtt := none
                 packet_loss := 100
                 error := some ("Task failed: " ++ msg) }
             http_result := none
             is_working := false } := by
  constructor
  · simp [check_bdix_connectivity]
  · simp [check_bdix_connectivity, List.getElem?_mapIdx,
      List.getElem?_eq_getElem h, henv, processTask]

/-- Witness for C1: a one-element batch whose only task raises still
yields one result, the fallback one. -/
theorem batch_length_and_raised_task_fallback_witness :
    (check_bdix_connectivity ["http://x.example"] (fun s => s)
      (fun _ => TaskOutcome.raised "boom") true).connectivity_results.length =
        (["http://x.example"] : List String).length ∧
    (check_bdix_connectivity ["http://x.example"] (fun s => s)
      (fun _ => TaskOutcome.raised "boom") true).connectivity_results[0]? =
      some { url := "http://x.example"
             hostname := "http://x.example"
             ping_result :=
               { hostname := "http://x.example"
                 is_alive := false
                 avg_rtt := none
                 packet_loss := 100
                 error := some ("Task failed: " ++ "boom") }
             http_result := none
             is_working := false } :=
  batch_length_and_raised_task_fallback ["http://x.example"] (fun s => s)
    (fun _ => TaskOutcome.raised "boom") true 0 "boom" (by decide) rfl

/-- C2: the result stored at index i of a batch report is the processed
outcome of the task launched for endpoint i, and in particular its url
field is urls[i]: input order is preserved through the fan-out. -/
theorem batch_results_preserve_input_order (urls : List String)
    (eh : String → String) (env : ℕ → TaskOutcome) (chk : Bool)
    (i : ℕ) (h : i < urls.length) :
    (check_bdix_connectivity urls eh env chk).connectivity_results[i]? =
      some (processTask eh urls[i] (env i)) ∧
    ((check_bdix_connectivity urls eh env chk).connectivity_results[i]?.map
      (fun r => r.url)) = some urls[i] := by
  have hget : (check_bdix_connectivity urls eh env chk).connectivity_results[i]? =
      some (processTask eh urls[i] (env i)) := by
    simp [check_bdix_connectivity, List.getElem?_mapIdx, List.getElem?_eq_getElem h]
  refine ⟨hget, ?_⟩
  rw [hget]
  cases henv : env i with
  | ok pingEff httpEff => simp [processTask, check_url_connectivity]
  | raised msg => simp [processTask]

/-- Witness for C2: in a concrete two-element batch, slot 1 holds the
processed outcome of task 1 and carries the second input URL. -/
theorem batch_results_preserve_input_order_witness :
    (check_bdix_connectivity ["http://a.example", "http://b.example"]
      (fun s => s) sampleEnv true).connectivity_results[1]? =
      some (processTask (fun s => s) "http://b.example" (sampleEnv 1)) ∧
    ((check_bdix_connectivity ["http://a.example", "http://b.example"]
      (fun s => s) sampleEnv true).connectivity_results[1]?.map
      (fun r => r.url)) = some "http://b.example" :=
  batch_results_preserve_input_order ["http://a.example", "http://b.example"]
    (fun s => s) sampleEnv true 1 (by decide)

/-- C3: working_count is the length of working_urls, which is exactly
the urls of the is_working results filtered out of the results list in
order and without deduplication at this layer. -/
theorem working_count_consistency (urls : List String)
    (eh : String → String) (env : ℕ → TaskOutcome) (chk : Bool) :
    (check_bdix_connectivity urls eh env chk).working_count =
      (check_bdix_connectivity urls eh env chk).working_urls.length ∧
    (check_bdix_connectivity urls eh env chk).working_count =
      ((check_bdix_connectivity urls eh env chk).connectivity_results.filter
        (fun r => r.is_working)).length ∧
    (check_bdix_connectivity urls eh env chk).working_urls =
      ((check_bdix_connectivity urls eh env chk).connectivity_results.filter
        (fun r => r.is_working)).map (fun r => r.url) := by
  refine ⟨rfl, ?_, rfl⟩
  simp [check_bdix_connectivity]

/-- C4: success_rate is working_count over total_urls_tested times 100
when the batch is nonempty, and 0 on an empty batch with no division
performed. -/
theorem success_rate_formula_and_empty_guard (urls : List String)
    (eh : String → String) (env : ℕ → TaskOutcome) (chk : Bool) :
    ((check_bdix_connectivity urls eh env chk).total_urls_tested ≠ 0 →
      (check_bdix_connectivity urls eh env chk).success_rate =
        ((check_bdix_connectivity urls eh env chk).working_count : ℚ) /
          ((check_bdix_connectivity urls eh env chk).total_urls_tested : ℚ) * 100) ∧
    ((check_bdix_connectivity urls eh env chk).total_urls_tested = 0 →
      (check_bdix_connectivity urls eh env chk).success_rate = 0) := by
  constructor
  · intro h
    simp only [check_bdix_connectivity] at h ⊢
    simp [h]
  · intro h
    simp only [check_bdix_connectivity] at h ⊢
    simp [h]

/-- Witness for C4: a two-element batch with one working endpoint has
success rate 50, and the empty batch has success rate 0. -/
theorem success_rate_formula_and_empty_guard_witness :
    (check_bdix_connectivity ["http://a.example", "http://b.example"]
      (fun s => s) sampleEnv true).success_rate = 50 ∧
    (check_bdix_connectivity ([] : List String)
      (fun s => s) sampleEnv true).success_rate = 0 := by
  constructor
  · have h := (success_rate_formula_and_empty_guard
      ["http://a.example", "http://b.example"] (fun s => s) sampleEnv true).1
      (by decide)
    have hw : (check_bdix_connectivity ["http://a.example", "http://b.example"]
        (fun s => s) sampleEnv true).working_count = 1 := by decide
    have ht : (check_bdix_connectivity ["http://a.example", "http://b.example"]
        (fun s => s) sampleEnv true).total_urls_tested = 2 := by decide
    rw [h, hw, ht]
    norm_num
  · exact (success_rate_formula_and_empty_guard ([] : List String)
      (fun s => s) sampleEnv true).2 rfl

/-- Deduplicating the image of a filtered list never exceeds the length
of the original list. -/
theorem dedup_map_filter_length_le {α β : Type} [DecidableEq β]
    (l : List α) (p : α → Bool) (f : α → β) :
    ((l.filter p).map f).dedup.length ≤ l.length :=
  calc ((l.filter p).map f).dedup.length ≤ ((l.filter p).map f).length :=
        List.Sublist.length_le (List.dedup_sublist _)
    _ = (l.filter p).length := List.length_map _ _
    _ ≤ l.length := List.length_filter_le _ _

/-- C5: total_hosts counts the distinct hostnames among ping-alive
results, so it never exceeds total_urls_tested and URLs sharing a
hostname contribute at most once. -/
theorem total_hosts_distinct_alive_le_total (urls : List String)
    (eh : String → String) (env : ℕ → TaskOutcome) (chk : Bool) :
    (check_bdix_connectivity urls eh env chk).total_hosts =
      (((check_bdix_connectivity urls eh env chk).connectivity_results.filter
        (fun r => r.ping_result.is_alive)).map
        (fun r => r.hostname)).dedup.length ∧
    (check_bdix_connectivity urls eh env chk).total_hosts ≤
      (check_bdix_connectivity urls eh env chk).total_urls_tested := by
  refine ⟨rfl, ?_⟩
  have h := dedup_map_filter_length_le
    (urls.mapIdx (fun i url => processTask eh url (env i)))
    (fun r => r.ping_result.is_alive) (fun r => r.hostname)
  simpa [check_bdix_connectivity, List.length_mapIdx] using h

/-- For any task outcome, the processed result skips HTTP exactly when
the ping stage did not report the host alive. -/
theorem processTask_http_invariant (eh : String → String) (url : String)
    (t : TaskOutcome) :
    ((processTask eh url t).ping_result.is_alive = false →
      (processTask eh url t).http_result = none) ∧
    ((processTask eh url t).ping_result.is_alive = true →
      (processTask eh url t).http_result ≠ none) := by
  cases t with
  | raised msg => simp [processTask]
  | ok pingEff httpEff =>
      constructor
      · intro h
        simp only [processTask, check_url_connectivity] at h ⊢
        simp [h]
      · intro h
        simp only [processTask, check_url_connectivity] at h ⊢
        simp [h]

/-- C7: a single-URL check has no HTTP result exactly when the ping
reported the host dead, and always has one when the host is alive; the
same invariant holds for every result in every batch report. -/
theorem http_result_none_iff_ping_dead (url : String)
    (eh : String → String) (pingEff : PingEffect) (httpEff : HttpEffect)
    (urls : List String) (env : ℕ → TaskOutcome) (chk : Bool) :
    ((check_url_connectivity url eh pingEff httpEff).ping_result.is_alive = false →
      (check_url_connectivity url eh pingEff httpEff).http_result = none) ∧
    ((check_url_connectivity url eh pingEff httpEff).ping_result.is_alive = true →
      (check_url_connectivity url eh pingEff httpEff).http_result ≠ none) ∧
    (∀ r ∈ (check_bdix_connectivity urls eh env chk).connectivity_results,
      (r.ping_result.is_alive = false → r.http_result = none) ∧
      (r.ping_result.is_alive = true → r.http_result ≠ none)) := by
  refine ⟨(processTask_http_invariant eh url (TaskOutcome.ok pingEff httpEff)).1,
    (processTask_http_invariant eh url (TaskOutcome.ok pingEff httpEff)).2, ?_⟩
  intro r hr
  simp only [check_bdix_connectivity] at hr
  obtain ⟨i, hi, hr⟩ := List.exists_of_mem_mapIdx hr
  subst hr
  exact processTask_http_invariant eh urls[i] (env i)

/-- Witness for C7: a DNS-dead endpoint has no HTTP result, an alive
endpoint has one, and the invariant holds for the fallback result of a
concrete one-element batch whose task raises. -/
theorem http_result_none_iff_ping_dead_witness :
    (check_url_connectivity "http://a.example" (fun s => s)
      PingEffect.nameLookupError HttpEffect.timeoutError).http_result = none ∧
    (check_url_connectivity "http://a.example" (fun s => s)
      (PingEffect.success true 10 0)
      (HttpEffect.response 200 "http://a.example")).http_result ≠ none := by
  constructor
  · exact (http_result_none_iff_ping_dead "http://a.example" (fun s => s)
      PingEffect.nameLookupError HttpEffect.timeoutError [] sampleEnv true).1 rfl
  · exact (http_result_none_iff_ping_dead "http://a.example" (fun s => s)
      (PingEffect.success true 10 0) (HttpEffect.response 200 "http://a.example")
      [] sampleEnv true).2.1 rfl

end Cbdix
